import Mathlib

/-!
Verification of the movie-recommendation ranking core
(`src/db/models.py`, `src/db/recommend.py`).

Modelling conventions:
* SQL numeric values are modelled exactly over `ℚ`; nullable columns are
  `Option`-valued and SQL `NULL` propagation through arithmetic is explicit
  (`none` absorbs `+`, `*`, `log`, `cosine_distance`).
* The store-evaluated operators that live outside the repository (pgvector's
  cosine-distance operator and PostgreSQL's `log`) are abstracted as a
  parameter record `SQLOps`; the repository code never inspects their
  results, it only composes them.
* PostgreSQL `LEAST(10, x)` ignores `NULL` arguments, so `LEAST(10, NULL) = 10`;
  this is modelled faithfully in `score_v3`.
* `ORDER BY expr DESC` in PostgreSQL places `NULL` sort keys first; the
  comparator `descBefore` models this.
* An `ORDER BY` on equal keys has store-defined row order, so one execution of
  a ranked query is modelled relationally (`rankedExecution`): any
  score-descending permutation of the candidate rows, then offset/limit.  The
  computable functions (`get_recommendations`, `get_similar_movies`) fix one
  admissible execution via insertion sort.
-/

namespace MovieRec

/-- Row of table `movies` (class `Movie` in `src/db/models.py`).
Only `movie_id` and `english_title` are non-nullable. -/
structure Movie where
  movie_id : ℤ
  english_title : String
  original_title : Option String
  runtime : Option ℚ
  overview : Option String
  genres : Option String
  keywords : Option String
  vote_average : Option ℚ
  vote_count : Option ℤ
  poster_path : Option String
  backdrop_path : Option String
deriving DecidableEq

/-- Row of table `movie_embedding_openai` (class `MovieEmbeddingOpenAI` in
`src/db/models.py`).  `movie_id` is the primary key; `embedding_ada_002` is
declared `nullable=False`, the other two vector columns are nullable.
The timestamp column is modelled as an integer epoch value. -/
structure MovieEmbeddingOpenAI where
  movie_id : ℤ
  embedding_ada_002 : List ℚ
  embedding_3_small : Option (List ℚ)
  embedding_3_large : Option (List ℚ)
  embedding_updated_at : ℤ
deriving DecidableEq

/-- Enum `EmbeddingModel` in `src/db/recommend.py`. -/
inductive EmbeddingModel where
  | ADA_002
  | SMALL_3
  | LARGE_3
deriving DecidableEq

/-- The `model_name` member payload of `EmbeddingModel`. -/
def EmbeddingModel.model_name : EmbeddingModel → String
  | .ADA_002 => "text-embedding-ada-002"
  | .SMALL_3 => "text-embedding-3-small"
  | .LARGE_3 => "text-embedding-3-large"

/-- The `db_column` member payload of `EmbeddingModel`: the accessor of the
vector column bound to the embedding space, reading it from one embedding row
(SQL value, so `none` models `NULL`). -/
def EmbeddingModel.db_column : EmbeddingModel → MovieEmbeddingOpenAI → Option (List ℚ)
  | .ADA_002, e => some e.embedding_ada_002
  | .SMALL_3, e => e.embedding_3_small
  | .LARGE_3, e => e.embedding_3_large

/-- Declared dimensionality of each space, from the `VECTOR(n)` column types in
`src/db/models.py` (1536, 1536, 3072). -/
def EmbeddingModel.dimensionality : EmbeddingModel → ℕ
  | .ADA_002 => 1536
  | .SMALL_3 => 1536
  | .LARGE_3 => 3072

/-- The store-side operators referenced by the scoring expressions and executed
by PostgreSQL/pgvector, outside the repository: the cosine-distance operator on
non-NULL vectors, and `log`.  The repository composes them without inspecting
their values, so they are parameters of the model. -/
structure SQLOps where
  cosine_distance : List ℚ → List ℚ → ℚ
  log : ℚ → ℚ

/-- Function `score_v1` in `src/db/recommend.py`, as the per-row SQL value of
the expression it builds: `1 - cosine_distance(column, embedding)`; `NULL`
(here `none`) when the row's vector column is `NULL`. -/
def score_v1 (ops : SQLOps) (embedding : List ℚ) (embedding_model : EmbeddingModel)
    (m : Movie) (e : MovieEmbeddingOpenAI) : Option ℚ :=
  match embedding_model.db_column e with
  | none => none
  | some v => some (1 - ops.cosine_distance v embedding)

/-- Function `score_v2` in `src/db/recommend.py`:
`0.8*(1 - cosine_distance) + 0.2*(vote_average/10) + 0.1*log(1 + vote_count)`;
`NULL` as soon as the vector column, `vote_average` or `vote_count` is `NULL`
(SQL `NULL` propagates through `+`, `*` and `log`). -/
def score_v2 (ops : SQLOps) (embedding : List ℚ) (embedding_model : EmbeddingModel)
    (m : Movie) (e : MovieEmbeddingOpenAI) : Option ℚ :=
  match embedding_model.db_column e, m.vote_average, m.vote_count with
  | some v, some va, some vc =>
      some (0.8 * (1 - ops.cosine_distance v embedding)
        + 0.2 * (va / 10) + 0.1 * ops.log (1 + (vc : ℚ)))
  | _, _, _ => none

/-- Function `score_v3` in `src/db/recommend.py`:
`0.9*(1 - cosine_distance) + 0.07*(vote_average/10)
 + 0.03*least(10, log(1 + vote_count))`.
PostgreSQL `LEAST` ignores `NULL` arguments, so a `NULL` `vote_count` leaves
the capped term at `10`; a `NULL` vector column or `vote_average` makes the
whole expression `NULL`. -/
def score_v3 (ops : SQLOps) (embedding : List ℚ) (embedding_model : EmbeddingModel)
    (m : Movie) (e : MovieEmbeddingOpenAI) : Option ℚ :=
  match embedding_model.db_column e, m.vote_average with
  | some v, some va =>
      some (0.9 * (1 - ops.cosine_distance v embedding)
        + 0.07 * (va / 10)
        + 0.03 * (match m.vote_count with
                  | none => 10
                  | some vc => min 10 (ops.log (1 + (vc : ℚ)))))
  | _, _ => none

/-- Enum `ScoreMetricVersion` in `src/db/recommend.py`. -/
inductive ScoreMetricVersion where
  | V1
  | V2
  | V3
deriving DecidableEq

/-- The `version` member payload of `ScoreMetricVersion`. -/
def ScoreMetricVersion.version : ScoreMetricVersion → String
  | .V1 => "v1"
  | .V2 => "v2"
  | .V3 => "v3"

/-- The `score_function` member payload of `ScoreMetricVersion`. -/
def ScoreMetricVersion.score_function :
    ScoreMetricVersion → SQLOps → List ℚ → EmbeddingModel →
      Movie → MovieEmbeddingOpenAI → Option ℚ
  | .V1 => score_v1
  | .V2 => score_v2
  | .V3 => score_v3

/-- Module-level constant `EMBEDDING_MODEL` in `src/db/recommend.py`. -/
def EMBEDDING_MODEL : EmbeddingModel := EmbeddingModel.LARGE_3

/-- Module-level constant `SCORE_METRIC_VERSION` in `src/db/recommend.py`. -/
def SCORE_METRIC_VERSION : ScoreMetricVersion := ScoreMetricVersion.V3

/-- The durable store state the two query functions read: the `movies` table
and the `movie_embedding_openai` table. -/
structure DB where
  movies : List Movie
  embeddings : List MovieEmbeddingOpenAI
deriving DecidableEq

/-- The row set of
`select(Movie).join(MovieEmbeddingOpenAI, Movie.movie_id == MovieEmbeddingOpenAI.movie_id)`:
the inner join of the two tables on `movie_id` alone (no condition on any
vector column). -/
def joinedRows (db : DB) : List (Movie × MovieEmbeddingOpenAI) :=
  db.movies.flatMap fun m =>
    (db.embeddings.filter fun e => e.movie_id == m.movie_id).map fun e => (m, e)

/-- PostgreSQL ordering of SQL values under `ORDER BY expr DESC`:
`NULL` keys come first (the `DESC` default is `NULLS FIRST`), then values in
descending order.  `descBefore a b` holds when a row with key `a` may be
placed at or before a row with key `b`. -/
def descBefore : Option ℚ → Option ℚ → Bool
  | none, _ => true
  | some _, none => false
  | some x, some y => y ≤ x

/-- One admissible materialisation of `ORDER BY score DESC` chosen by the
computable model: insertion sort with the `descBefore` comparator on each
row's score. -/
def order_by_score_desc (score : Movie × MovieEmbeddingOpenAI → Option ℚ)
    (rows : List (Movie × MovieEmbeddingOpenAI)) : List (Movie × MovieEmbeddingOpenAI) :=
  List.insertionSort (fun a b => descBefore (score a) (score b) = true) rows

/-- Function `get_recommendations` in `src/db/recommend.py`, with the two
external collaborators passed in: `ops` (the store's SQL operators) and
`embed_text` (the OpenAI embedder, `openai.embeddings.create` followed by
`response.data[0].embedding`).  The statement is: join, order by the score
expression descending, `offset = (page - 1) * per_page`, `limit per_page`. -/
def get_recommendations (ops : SQLOps) (embed_text : String → List ℚ) (db : DB)
    (prompt : String) (page : ℕ) (per_page : ℕ)
    (embedding_model : EmbeddingModel) (score_metric_version : ScoreMetricVersion) :
    List Movie :=
  let offset := (page - 1) * per_page
  let embedding := embed_text prompt
  let score_metric := fun p : Movie × MovieEmbeddingOpenAI =>
    score_metric_version.score_function ops embedding embedding_model p.1 p.2
  let sorted := order_by_score_desc score_metric (joinedRows db)
  ((sorted.drop offset).take per_page).map Prod.fst

/-- Function `get_movie_by_id` in `src/db/recommend.py`:
`scalar_one_or_none` on a point select by primary key. -/
def get_movie_by_id (db : DB) (movie_id : ℤ) : Option Movie :=
  db.movies.find? fun m => m.movie_id == movie_id

/-- The target-vector lookup at the head of `get_similar_movies`:
`select(embedding_model.db_column).where(MovieEmbeddingOpenAI.movie_id == movie_id)`
with `scalar_one_or_none()`.  It yields `none` both when no embedding row
exists for `movie_id` and when the row exists but the selected vector column
is `NULL`. -/
def similar_target_embedding (db : DB) (movie_id : ℤ)
    (embedding_model : EmbeddingModel) : Option (List ℚ) :=
  (db.embeddings.find? fun e => e.movie_id == movie_id).bind embedding_model.db_column

/-- Function `get_similar_movies` in `src/db/recommend.py`: look up the target
movie's own vector; if it is absent return `[]`; otherwise run the same
join-order-offset-limit statement as `get_recommendations` with the extra
candidate filter `Movie.movie_id != movie_id`. -/
def get_similar_movies (ops : SQLOps) (db : DB) (movie_id : ℤ)
    (page : ℕ) (per_page : ℕ)
    (embedding_model : EmbeddingModel) (score_metric_version : ScoreMetricVersion) :
    List Movie :=
  let offset := (page - 1) * per_page
  match similar_target_embedding db movie_id embedding_model with
  | none => []
  | some target_embedding =>
    let score_metric := fun p : Movie × MovieEmbeddingOpenAI =>
      score_metric_version.score_function ops target_embedding embedding_model p.1 p.2
    let candidates := (joinedRows db).filter fun p => p.1.movie_id != movie_id
    let sorted := order_by_score_desc score_metric candidates
    ((sorted.drop offset).take per_page).map Prod.fst

/-- A list of rows is sorted for `ORDER BY score DESC` when every pair of
rows, in order, satisfies the `descBefore` comparator on scores. -/
def sortedByScoreDesc (score : Movie × MovieEmbeddingOpenAI → Option ℚ)
    (rows : List (Movie × MovieEmbeddingOpenAI)) : Prop :=
  rows.Pairwise fun a b => descBefore (score a) (score b) = true

/-- Relational semantics of one store execution of a ranked query: PostgreSQL
may return the candidate rows in any order consistent with
`ORDER BY score DESC` (equal and `NULL` keys have store-defined relative
order), then applies `OFFSET`/`LIMIT`; the result projects the `Movie` side
of each row. -/
def rankedExecution (score : Movie × MovieEmbeddingOpenAI → Option ℚ)
    (rows : List (Movie × MovieEmbeddingOpenAI)) (offset limit : ℕ)
    (res : List Movie) : Prop :=
  ∃ s, rows.Perm s ∧ sortedByScoreDesc score s ∧
    res = ((s.drop offset).take limit).map Prod.fst

/-- Relational semantics of one call of `get_recommendations`: some store
execution of its statement produced `res`. -/
def get_recommendations_execution (ops : SQLOps) (embed_text : String → List ℚ)
    (db : DB) (prompt : String) (page : ℕ) (per_page : ℕ)
    (embedding_model : EmbeddingModel) (score_metric_version : ScoreMetricVersion)
    (res : List Movie) : Prop :=
  rankedExecution
    (fun p => score_metric_version.score_function ops (embed_text prompt)
      embedding_model p.1 p.2)
    (joinedRows db) ((page - 1) * per_page) per_page res

/-- Concrete store operators for evaluating the model on closed inputs:
a distance that depends only on the head coordinates, and `log` taken as the
identity.  (The claims hold for every `SQLOps`; a concrete one is needed to
evaluate closed instances.) -/
def testOps : SQLOps := ⟨fun v q => v.headD 0 * q.headD 0, fun x => x⟩

/-- Concrete deterministic embedder for closed instances. -/
def testEmbed : String → List ℚ := fun _ => [1]

/-- Movie 1: `vote_average = 8`, `vote_count = 100`. -/
def mA : Movie := ⟨1, "A", none, none, none, none, none, some 8, some 100, none, none⟩

/-- Movie 2: `vote_average = 5`, `vote_count = 10`. -/
def mB : Movie := ⟨2, "B", none, none, none, none, none, some 5, some 10, none, none⟩

/-- Embedding row for movie 1 with a `LARGE_3` vector. -/
def eA : MovieEmbeddingOpenAI := ⟨1, [1], none, some [1, 0, 0], 0⟩

/-- Embedding row for movie 2 with a `LARGE_3` vector. -/
def eB : MovieEmbeddingOpenAI := ⟨2, [1], none, some [2], 0⟩

/-- Two movies, each with an embedding row carrying a `LARGE_3` vector. -/
def dbAB : DB := ⟨[mA, mB], [eA, eB]⟩

/-- A movie whose embedding row has `NULL` in `embedding_3_large`. -/
def mNull : Movie := ⟨1, "N", none, none, none, none, none, some 7, some 3, none, none⟩

/-- Embedding row for `mNull`: only the mandatory `ada_002` vector is present;
`embedding_3_small` and `embedding_3_large` are `NULL`. -/
def eNull : MovieEmbeddingOpenAI := ⟨1, [1], none, none, 0⟩

/-- Store with one movie whose `LARGE_3` column is `NULL`. -/
def dbNull : DB := ⟨[mNull], [eNull]⟩

/-- Store with one movie and no embedding rows at all. -/
def dbNoRows : DB := ⟨[mA], []⟩

/-- Movie 1 of the tied pair. -/
def mTie1 : Movie := ⟨1, "T1", none, none, none, none, none, some 5, some 5, none, none⟩

/-- Movie 2 of the tied pair: same popularity as `mTie1`. -/
def mTie2 : Movie := ⟨2, "T2", none, none, none, none, none, some 5, some 5, none, none⟩

/-- Embedding row for `mTie1`; under `testOps` its distance to any query
depends only on the head coordinate `1`. -/
def eTie1 : MovieEmbeddingOpenAI := ⟨1, [1], none, some [1, 5], 0⟩

/-- Embedding row for `mTie2`: distinct vector with the same head coordinate,
hence the same `testOps` distance and the same score as `mTie1`. -/
def eTie2 : MovieEmbeddingOpenAI := ⟨2, [1], none, some [1, 7], 0⟩

/-- Store with two distinct movies whose V3 scores are exactly equal. -/
def dbTie : DB := ⟨[mTie1, mTie2], [eTie1, eTie2]⟩

/-- The V3 scoring formula exactly as the spec writes it, as a function of the
already-computed cosine distance and the two popularity scalars:
`0.9*(1 - distance) + 0.07*(vote_average/10) + 0.03*min(10, log(1 + vote_count))`. -/
def score_v3_spec (ops : SQLOps) (distance va : ℚ) (vc : ℤ) : ℚ :=
  0.9 * (1 - distance) + 0.07 * (va / 10) + 0.03 * min 10 (ops.log (1 + (vc : ℚ)))

/-- C1: `score_v3` is the `score_function` of the default `ScoreMetricVersion`,
and on every candidate whose vector column, `vote_average` and `vote_count` are
present it returns exactly
`0.9*(1 - cosine_distance(q, v)) + 0.07*(vote_average/10) + 0.03*min(10, log(1 + vote_count))`. -/
theorem score_v3_is_documented_formula (ops : SQLOps) (q : List ℚ)
    (em : EmbeddingModel) (m : Movie) (e : MovieEmbeddingOpenAI)
    (v : List ℚ) (va : ℚ) (vc : ℤ)
    (hv : em.db_column e = some v) (hva : m.vote_average = some va)
    (hvc : m.vote_count = some vc) :
    SCORE_METRIC_VERSION.score_function = score_v3 ∧
    score_v3 ops q em m e = some (score_v3_spec ops (ops.cosine_distance v q) va vc) := by
  refine ⟨rfl, ?_⟩
  simp [score_v3, score_v3_spec, hv, hva, hvc]

/-- C1 witness: the formula identity evaluated on a concrete candidate. -/
theorem score_v3_is_documented_formula_check :
    EmbeddingModel.LARGE_3.db_column eA = some [1, 0, 0] ∧
    (SCORE_METRIC_VERSION.score_function = score_v3 ∧
      score_v3 testOps [1] EmbeddingModel.LARGE_3 mA eA
        = some (score_v3_spec testOps (testOps.cosine_distance [1, 0, 0] [1]) 8 100)) :=
  ⟨rfl, score_v3_is_documented_formula testOps [1] EmbeddingModel.LARGE_3 mA eA
    [1, 0, 0] 8 100 rfl rfl rfl⟩

/-- C6: for every candidate with `vote_average` in `[0, 10]` and
`vote_count ≥ 0`, the two popularity terms of the V3 score — everything beyond
the similarity term `0.9*(1 - distance)` — contribute at most `0.37`. -/
theorem score_v3_popularity_bound (ops : SQLOps) (q : List ℚ)
    (em : EmbeddingModel) (m : Movie) (e : MovieEmbeddingOpenAI)
    (v : List ℚ) (va : ℚ) (vc : ℤ) (s : ℚ)
    (hv : em.db_column e = some v) (hva : m.vote_average = some va)
    (hvc : m.vote_count = some vc)
    (hva0 : 0 ≤ va) (hva10 : va ≤ 10) (hvc0 : 0 ≤ vc)
    (hs : score_v3 ops q em m e = some s) :
    s - 0.9 * (1 - ops.cosine_distance v q) ≤ 0.37 := by
  simp [score_v3, hv, hva, hvc] at hs
  have hmin : min 10 (ops.log (1 + (vc : ℚ))) ≤ 10 := min_le_left _ _
  linarith

/-- C6 witness: the popularity bound at a concrete candidate with
`vote_average = 8` and `vote_count = 100`, whose V3 score is `0.356`. -/
theorem score_v3_popularity_bound_check :
    (0 ≤ (8 : ℚ) ∧ (8 : ℚ) ≤ 10 ∧ 0 ≤ (100 : ℤ) ∧
      score_v3 testOps [1] EmbeddingModel.LARGE_3 mA eA = some 0.356) ∧
    0.356 - 0.9 * (1 - testOps.cosine_distance [1, 0, 0] [1]) ≤ 0.37 := by
  have hs : score_v3 testOps [1] EmbeddingModel.LARGE_3 mA eA = some 0.356 := by
    norm_num [score_v3, mA, eA, testOps, EmbeddingModel.db_column, min_def]
  exact ⟨⟨by norm_num, by norm_num, by norm_num, hs⟩,
    score_v3_popularity_bound testOps [1] EmbeddingModel.LARGE_3 mA eA
      [1, 0, 0] 8 100 0.356 rfl rfl rfl (by norm_num) (by norm_num) (by norm_num) hs⟩

/-- C7: for each of `score_v1`, `score_v2`, `score_v3`, with the candidate's
popularity fields fixed, a strictly smaller cosine distance gives a strictly
larger score (the defined score values are compared via `Option.getD`, which
is justified because all three scores are defined under the hypotheses). -/
theorem score_strictly_decreasing_in_distance (ops : SQLOps) (q1 q2 : List ℚ)
    (em : EmbeddingModel) (m : Movie) (e : MovieEmbeddingOpenAI)
    (v : List ℚ) (va : ℚ) (vc : ℤ)
    (hv : em.db_column e = some v) (hva : m.vote_average = some va)
    (hvc : m.vote_count = some vc)
    (hlt : ops.cosine_distance v q1 < ops.cosine_distance v q2) :
    (score_v1 ops q2 em m e).getD 0 < (score_v1 ops q1 em m e).getD 0 ∧
    (score_v2 ops q2 em m e).getD 0 < (score_v2 ops q1 em m e).getD 0 ∧
    (score_v3 ops q2 em m e).getD 0 < (score_v3 ops q1 em m e).getD 0 := by
  simp only [score_v1, score_v2, score_v3, hv, hva, hvc, Option.getD_some]
  refine ⟨by linarith, by linarith, by linarith⟩

/-- C7 witness: the three strict comparisons at concrete query vectors with
distances `1 < 2` to the stored vector. -/
theorem score_strictly_decreasing_in_distance_check :
    testOps.cosine_distance [1, 0, 0] [1] < testOps.cosine_distance [1, 0, 0] [2] ∧
    ((score_v1 testOps [2] EmbeddingModel.LARGE_3 mA eA).getD 0
        < (score_v1 testOps [1] EmbeddingModel.LARGE_3 mA eA).getD 0 ∧
      (score_v2 testOps [2] EmbeddingModel.LARGE_3 mA eA).getD 0
        < (score_v2 testOps [1] EmbeddingModel.LARGE_3 mA eA).getD 0 ∧
      (score_v3 testOps [2] EmbeddingModel.LARGE_3 mA eA).getD 0
        < (score_v3 testOps [1] EmbeddingModel.LARGE_3 mA eA).getD 0) :=
  ⟨by norm_num [testOps],
    score_strictly_decreasing_in_distance testOps [1] [2] EmbeddingModel.LARGE_3 mA eA
      [1, 0, 0] 8 100 rfl rfl rfl (by norm_num [testOps])⟩

lemma mem_joinedRows {db : DB} {p : Movie × MovieEmbeddingOpenAI}
    (hp : p ∈ joinedRows db) :
    p.1 ∈ db.movies ∧ p.2 ∈ db.embeddings ∧ p.2.movie_id = p.1.movie_id := by
  unfold joinedRows at hp
  obtain ⟨m, hm, hp⟩ := List.mem_flatMap.1 hp
  obtain ⟨e, he, rfl⟩ := List.mem_map.1 hp
  obtain ⟨he2, heq⟩ := List.mem_filter.1 he
  exact ⟨hm, he2, by simpa using heq⟩

lemma mem_get_recommendations {ops : SQLOps} {embed_text : String → List ℚ} {db : DB}
    {prompt : String} {page per_page : ℕ} {em : EmbeddingModel}
    {smv : ScoreMetricVersion} {m : Movie}
    (hm : m ∈ get_recommendations ops embed_text db prompt page per_page em smv) :
    ∃ e, (m, e) ∈ joinedRows db := by
  unfold get_recommendations order_by_score_desc at hm
  obtain ⟨p, hp, rfl⟩ := List.mem_map.1 hm
  have hp2 := List.drop_subset _ _ (List.take_subset _ _ hp)
  exact ⟨p.2, (List.mem_insertionSort _).1 hp2⟩

lemma mem_get_similar_movies {ops : SQLOps} {db : DB} {movie_id : ℤ}
    {page per_page : ℕ} {em : EmbeddingModel} {smv : ScoreMetricVersion} {m : Movie}
    (hm : m ∈ get_similar_movies ops db movie_id page per_page em smv) :
    ∃ e, (m, e) ∈ joinedRows db ∧ m.movie_id ≠ movie_id := by
  unfold get_similar_movies at hm
  cases h : similar_target_embedding db movie_id em with
  | none => rw [h] at hm; simp at hm
  | some t =>
    rw [h] at hm
    simp only at hm
    unfold order_by_score_desc at hm
    obtain ⟨p, hp, rfl⟩ := List.mem_map.1 hm
    have hp2 := List.drop_subset _ _ (List.take_subset _ _ hp)
    have hp3 := (List.mem_insertionSort _).1 hp2
    obtain ⟨hp4, hne⟩ := List.mem_filter.1 hp3
    exact ⟨p.2, hp4, by simpa using hne⟩

/-- C4: `get_similar_movies movie_id …` never returns the movie with
identifier `movie_id`: every returned movie has a different `movie_id`,
for every store state, page, page size, space and score version. -/
theorem similar_excludes_self (ops : SQLOps) (db : DB) (movie_id : ℤ)
    (page per_page : ℕ) (em : EmbeddingModel) (smv : ScoreMetricVersion) :
    (get_similar_movies ops db movie_id page per_page em smv).all
      (fun m => m.movie_id != movie_id) = true := by
  rw [List.all_eq_true]
  intro m hm
  obtain ⟨e, _, hne⟩ := mem_get_similar_movies hm
  simpa using hne

/-- C5: when the target movie has no stored vector in the requested space —
because it is unknown, has no embedding row, or its row's column for the
space is `NULL` — `get_similar_movies` returns the empty list through the
normal success path (it never reaches the candidate query). -/
theorem similar_no_vector_returns_empty (ops : SQLOps) (db : DB) (movie_id : ℤ)
    (page per_page : ℕ) (em : EmbeddingModel) (smv : ScoreMetricVersion)
    (h : similar_target_embedding db movie_id em = none) :
    get_similar_movies ops db movie_id page per_page em smv = [] := by
  simp [get_similar_movies, h]

/-- C5 witness: a movie whose embedding row exists but whose `LARGE_3` column
is `NULL` yields the empty result, not an error. -/
theorem similar_no_vector_returns_empty_check :
    similar_target_embedding dbNull 1 EmbeddingModel.LARGE_3 = none ∧
    get_similar_movies testOps dbNull 1 1 10
      EmbeddingModel.LARGE_3 ScoreMetricVersion.V3 = [] :=
  ⟨rfl, similar_no_vector_returns_empty testOps dbNull 1 1 10
    EmbeddingModel.LARGE_3 ScoreMetricVersion.V3 rfl⟩

/-- C2 counterexample: `eNull` is an embedding row whose `LARGE_3` column is
`NULL`, so movie `mNull` has no stored vector in that space, yet
`get_recommendations` in the `LARGE_3` space returns it: the candidate join is
on `movie_id` only, the `NULL` score orders first under `ORDER BY … DESC`, and
the movie is served on page 1. -/
theorem null_vector_movie_is_returned :
    EmbeddingModel.LARGE_3.db_column eNull = none ∧
    eNull ∈ dbNull.embeddings ∧ mNull.movie_id = eNull.movie_id ∧
    get_recommendations testOps testEmbed dbNull "q" 1 10
      EmbeddingModel.LARGE_3 ScoreMetricVersion.V3 = [mNull] := by
  refine ⟨rfl, by simp [dbNull], rfl, ?_⟩
  norm_num [get_recommendations, order_by_score_desc, joinedRows, dbNull, mNull, eNull,
    testOps, testEmbed, score_v3, ScoreMetricVersion.score_function, EmbeddingModel.db_column,
    List.insertionSort, List.orderedInsert, descBefore, List.filter_cons, List.flatMap_cons]

/-- C2 amended: an item with no `MovieEmbeddingOpenAI` row at all never appears
in the output of either ranking query — every returned movie has a row in the
embeddings table joined on its `movie_id`.  (An item whose row exists but whose
column for the requested space is `NULL` is not excluded: it joins and is
ordered with a `NULL` score, as the counterexample shows.) -/
theorem returned_movies_have_embedding_rows (ops : SQLOps)
    (embed_text : String → List ℚ) (db : DB) (prompt : String) (movie_id : ℤ)
    (page per_page : ℕ) (em : EmbeddingModel) (smv : ScoreMetricVersion) (m : Movie) :
    (m ∈ get_recommendations ops embed_text db prompt page per_page em smv →
      ∃ e, e ∈ db.embeddings ∧ e.movie_id = m.movie_id) ∧
    (m ∈ get_similar_movies ops db movie_id page per_page em smv →
      ∃ e, e ∈ db.embeddings ∧ e.movie_id = m.movie_id) := by
  constructor
  · intro hm
    obtain ⟨e, he⟩ := mem_get_recommendations hm
    obtain ⟨_, he2, heq⟩ := mem_joinedRows he
    exact ⟨e, he2, heq⟩
  · intro hm
    obtain ⟨e, he, _⟩ := mem_get_similar_movies hm
    obtain ⟨_, he2, heq⟩ := mem_joinedRows he
    exact ⟨e, he2, heq⟩

/-- C2 amended witness: both memberships discharged on a concrete store. -/
theorem returned_movies_have_embedding_rows_check :
    (mA ∈ get_recommendations testOps testEmbed dbAB "q" 1 10
        EmbeddingModel.LARGE_3 ScoreMetricVersion.V3 ∧
      mA ∈ get_similar_movies testOps dbAB 2 1 10
        EmbeddingModel.LARGE_3 ScoreMetricVersion.V3) ∧
    (∃ e, e ∈ dbAB.embeddings ∧ e.movie_id = mA.movie_id) := by
  have h1 : get_recommendations testOps testEmbed dbAB "q" 1 10
      EmbeddingModel.LARGE_3 ScoreMetricVersion.V3 = [mA, mB] := by
    norm_num [get_recommendations, order_by_score_desc, joinedRows, dbAB, mA, mB, eA, eB,
      testOps, testEmbed, score_v3, ScoreMetricVersion.score_function,
      EmbeddingModel.db_column, List.insertionSort, List.orderedInsert, descBefore,
      List.filter_cons, List.flatMap_cons]
  have h2 : get_similar_movies testOps dbAB 2 1 10
      EmbeddingModel.LARGE_3 ScoreMetricVersion.V3 = [mA] := by
    norm_num [get_similar_movies, similar_target_embedding, order_by_score_desc, joinedRows,
      dbAB, mA, mB, eA, eB, testOps, score_v3, ScoreMetricVersion.score_function,
      EmbeddingModel.db_column, List.insertionSort, List.orderedInsert, descBefore,
      List.filter_cons, List.flatMap_cons, List.find?_cons]
  have hm1 : mA ∈ get_recommendations testOps testEmbed dbAB "q" 1 10
      EmbeddingModel.LARGE_3 ScoreMetricVersion.V3 := by rw [h1]; simp
  have hm2 : mA ∈ get_similar_movies testOps dbAB 2 1 10
      EmbeddingModel.LARGE_3 ScoreMetricVersion.V3 := by rw [h2]; simp
  exact ⟨⟨hm1, hm2⟩,
    (returned_movies_have_embedding_rows testOps testEmbed dbAB "q" 2 1 10
      EmbeddingModel.LARGE_3 ScoreMetricVersion.V3 mA).2 hm2⟩

/-- C3 counterexample: the embedder output `[1]` has length 1, not the 3072
declared for `LARGE_3`, yet the V3 score function produces a defined score for
it and `get_recommendations` completes normally, returning both movies — no
dimensionality error is raised before (or instead of) scoring. -/
theorem mismatched_vector_is_scored :
    (testEmbed "q").length ≠ EmbeddingModel.LARGE_3.dimensionality ∧
    score_v3 testOps (testEmbed "q") EmbeddingModel.LARGE_3 mA eA = some 0.356 ∧
    get_recommendations testOps testEmbed dbAB "q" 1 10
      EmbeddingModel.LARGE_3 ScoreMetricVersion.V3 = [mA, mB] := by
  refine ⟨by norm_num [testEmbed, EmbeddingModel.dimensionality], ?_, ?_⟩
  · norm_num [score_v3, mA, eA, testOps, testEmbed, EmbeddingModel.db_column, min_def]
  · norm_num [get_recommendations, order_by_score_desc, joinedRows, dbAB, mA, mB, eA, eB,
      testOps, testEmbed, score_v3, ScoreMetricVersion.score_function,
      EmbeddingModel.db_column, List.insertionSort, List.orderedInsert, descBefore,
      List.filter_cons, List.flatMap_cons]

/-- C3 amended: the repository performs no dimensionality validation at all:
for a query vector of any length — in particular one whose length differs from
the space's declared dimensionality — all three score functions yield a
defined (non-`NULL`) score on every candidate whose vector column and
popularity fields are present.  The mismatched vector is passed to the store's
distance operator unchanged; no `DimensionalityMismatchError` (or any other
error path) exists in the code. -/
theorem no_dimensionality_check (ops : SQLOps) (q : List ℚ)
    (em : EmbeddingModel) (m : Movie) (e : MovieEmbeddingOpenAI)
    (v : List ℚ) (va : ℚ) (vc : ℤ)
    (hv : em.db_column e = some v) (hva : m.vote_average = some va)
    (hvc : m.vote_count = some vc)
    (hlen : q.length ≠ em.dimensionality) :
    (score_v1 ops q em m e).isSome = true ∧
    (score_v2 ops q em m e).isSome = true ∧
    (score_v3 ops q em m e).isSome = true := by
  simp [score_v1, score_v2, score_v3, hv, hva, hvc]

/-- C3 amended witness: a length-1 query in the 3072-dimensional space is
scored by all three functions. -/
theorem no_dimensionality_check_check :
    ((testEmbed "q").length ≠ EmbeddingModel.LARGE_3.dimensionality) ∧
    ((score_v1 testOps (testEmbed "q") EmbeddingModel.LARGE_3 mA eA).isSome = true ∧
      (score_v2 testOps (testEmbed "q") EmbeddingModel.LARGE_3 mA eA).isSome = true ∧
      (score_v3 testOps (testEmbed "q") EmbeddingModel.LARGE_3 mA eA).isSome = true) :=
  ⟨by norm_num [testEmbed, EmbeddingModel.dimensionality],
    no_dimensionality_check testOps (testEmbed "q") EmbeddingModel.LARGE_3 mA eA
      [1, 0, 0] 8 100 rfl rfl rfl
      (by norm_num [testEmbed, EmbeddingModel.dimensionality])⟩

/-- C8: the pagination contract of both queries.  With 1-indexed `page` and
positive `per_page`, each query returns exactly the slice of its
score-descending candidate ordering from rank `(page-1)*per_page` (0-indexed)
of length at most `per_page`; the result is shorter than `per_page` only by
running off the end, and it is the empty list — produced normally, not an
error — whenever the offset is at or beyond the number of candidates. -/
theorem pagination_contract (ops : SQLOps) (embed_text : String → List ℚ)
    (db : DB) (prompt : String) (movie_id : ℤ) (target : List ℚ)
    (page per_page : ℕ) (em : EmbeddingModel) (smv : ScoreMetricVersion)
    (hpage : 1 ≤ page) (hsize : 0 < per_page)
    (htarget : similar_target_embedding db movie_id em = some target) :
    (get_recommendations ops embed_text db prompt page per_page em smv
        = (((order_by_score_desc
              (fun p => smv.score_function ops (embed_text prompt) em p.1 p.2)
              (joinedRows db)).drop ((page - 1) * per_page)).take per_page).map Prod.fst) ∧
    (get_recommendations ops embed_text db prompt page per_page em smv).length ≤ per_page ∧
    ((order_by_score_desc
          (fun p => smv.score_function ops (embed_text prompt) em p.1 p.2)
          (joinedRows db)).length ≤ (page - 1) * per_page →
      get_recommendations ops embed_text db prompt page per_page em smv = []) ∧
    (get_similar_movies ops db movie_id page per_page em smv
        = (((order_by_score_desc
              (fun p => smv.score_function ops target em p.1 p.2)
              ((joinedRows db).filter fun p => p.1.movie_id != movie_id)).drop
                ((page - 1) * per_page)).take per_page).map Prod.fst) ∧
    (get_similar_movies ops db movie_id page per_page em smv).length ≤ per_page ∧
    ((order_by_score_desc
          (fun p => smv.score_function ops target em p.1 p.2)
          ((joinedRows db).filter fun p => p.1.movie_id != movie_id)).length
        ≤ (page - 1) * per_page →
      get_similar_movies ops db movie_id page per_page em smv = []) := by
  have hsim : get_similar_movies ops db movie_id page per_page em smv
      = (((order_by_score_desc
            (fun p => smv.score_function ops target em p.1 p.2)
            ((joinedRows db).filter fun p => p.1.movie_id != movie_id)).drop
              ((page - 1) * per_page)).take per_page).map Prod.fst := by
    simp [get_similar_movies, htarget]
  refine ⟨rfl, ?_, ?_, hsim, ?_, ?_⟩
  · simp only [get_recommendations, List.length_map, List.length_take]
    exact min_le_left _ _
  · intro hoff
    simp only [get_recommendations]
    rw [List.drop_eq_nil_of_le hoff]
    simp
  · rw [hsim, List.length_map, List.length_take]
    exact min_le_left _ _
  · intro hoff
    rw [hsim, List.drop_eq_nil_of_le hoff]
    simp

/-- C8 witness: the pagination contract discharged on a concrete store, page 1
and page size 10 for both queries. -/
theorem pagination_contract_check :
    ((1 : ℕ) ≤ 1 ∧ (0 : ℕ) < 10 ∧
      similar_target_embedding dbAB 2 EmbeddingModel.LARGE_3 = some [2]) ∧
    ((get_recommendations testOps testEmbed dbAB "q" 1 10
        EmbeddingModel.LARGE_3 ScoreMetricVersion.V3).length ≤ 10 ∧
      (get_similar_movies testOps dbAB 2 1 10
        EmbeddingModel.LARGE_3 ScoreMetricVersion.V3).length ≤ 10) := by
  have h := pagination_contract testOps testEmbed dbAB "q" 2 [2] 1 10
    EmbeddingModel.LARGE_3 ScoreMetricVersion.V3 (by norm_num) (by norm_num) rfl
  exact ⟨⟨by norm_num, by norm_num, rfl⟩, h.2.1, h.2.2.2.2.1⟩

lemma nodup_of_length_le_one {α : Type} {l : List α} (h : l.length ≤ 1) : l.Nodup := by
  match l with
  | [] => exact List.nodup_nil
  | [a] => exact List.nodup_singleton a
  | a :: b :: t => simp at h

lemma length_filter_key_le_one {l : List MovieEmbeddingOpenAI}
    (he : (l.map MovieEmbeddingOpenAI.movie_id).Nodup) (k : ℤ) :
    (l.filter fun e => e.movie_id == k).length ≤ 1 := by
  induction l with
  | nil => simp
  | cons e l ih =>
    rw [List.map_cons, List.nodup_cons] at he
    obtain ⟨hnotin, he2⟩ := he
    by_cases hek : (e.movie_id == k) = true
    · have hnil : (l.filter fun x => x.movie_id == k) = [] := by
        rw [List.filter_eq_nil_iff]
        intro x hx hxk
        apply hnotin
        have h1 : x.movie_id = k := by simpa using hxk
        have h2 : e.movie_id = k := by simpa using hek
        rw [List.mem_map]
        exact ⟨x, hx, by rw [h1, h2]⟩
      simp [List.filter_cons, hek, hnil]
    · simp only [List.filter_cons, hek, if_false]
      exact ih he2

lemma joinedRows_ids_nodup {db : DB}
    (hm : (db.movies.map Movie.movie_id).Nodup)
    (he : (db.embeddings.map MovieEmbeddingOpenAI.movie_id).Nodup) :
    ((joinedRows db).map fun p => p.1.movie_id).Nodup := by
  unfold joinedRows
  rw [List.map_flatMap]
  refine List.nodup_flatMap.2 ⟨?_, ?_⟩
  · intro m _
    refine nodup_of_length_le_one ?_
    rw [List.length_map, List.length_map]
    exact length_filter_key_le_one he m.movie_id
  · have hm2 : db.movies.Pairwise fun a b => a.movie_id ≠ b.movie_id :=
      List.pairwise_map.1 hm
    refine hm2.imp ?_
    intro a b hne x hxa hxb
    obtain ⟨p, hp, rfl⟩ := List.mem_map.1 hxa
    obtain ⟨e1, he1, rfl⟩ := List.mem_map.1 hp
    obtain ⟨p2, hp2, hkey⟩ := List.mem_map.1 hxb
    obtain ⟨e2, he2, rfl⟩ := List.mem_map.1 hp2
    exact hne hkey.symm

lemma ranked_page_ids_nodup (score : Movie × MovieEmbeddingOpenAI → Option ℚ)
    (rows : List (Movie × MovieEmbeddingOpenAI)) (off n : ℕ)
    (h : (rows.map fun p => p.1.movie_id).Nodup) :
    (((((order_by_score_desc score rows).drop off).take n).map Prod.fst).map
      Movie.movie_id).Nodup := by
  rw [List.map_map]
  have hperm : List.Perm ((order_by_score_desc score rows).map fun p => p.1.movie_id)
      (rows.map fun p => p.1.movie_id) :=
    (List.perm_insertionSort _ rows).map _
  have hsorted : ((order_by_score_desc score rows).map fun p => p.1.movie_id).Nodup :=
    hperm.nodup_iff.2 h
  have hsub : List.Sublist (((order_by_score_desc score rows).drop off).take n)
      (order_by_score_desc score rows) :=
    (List.take_sublist _ _).trans (List.drop_sublist _ _)
  exact List.Nodup.sublist (hsub.map _) hsorted

/-- C10: neither query ever returns the same movie twice: under the primary-key
invariants of the two tables (no duplicate `movie_id` among movies, none among
embedding rows — `movie_id` is the primary key of `movie_embedding_openai`),
the join matches at most one embedding row per movie, so the returned
`movie_id` lists are duplicate-free. -/
theorem results_have_no_duplicate_ids (ops : SQLOps)
    (embed_text : String → List ℚ) (db : DB) (prompt : String) (movie_id : ℤ)
    (page per_page : ℕ) (em : EmbeddingModel) (smv : ScoreMetricVersion)
    (hm : (db.movies.map Movie.movie_id).Nodup)
    (he : (db.embeddings.map MovieEmbeddingOpenAI.movie_id).Nodup) :
    ((get_recommendations ops embed_text db prompt page per_page em smv).map
      Movie.movie_id).Nodup ∧
    ((get_similar_movies ops db movie_id page per_page em smv).map
      Movie.movie_id).Nodup := by
  have hkey := joinedRows_ids_nodup hm he
  constructor
  · exact ranked_page_ids_nodup _ _ _ _ hkey
  · cases htarget : similar_target_embedding db movie_id em with
    | none => simp [get_similar_movies, htarget]
    | some t =>
      simp only [get_similar_movies, htarget]
      refine ranked_page_ids_nodup _ _ _ _ ?_
      exact List.Nodup.sublist ((List.filter_sublist _).map _) hkey

/-- C10 witness: duplicate-freeness discharged on a concrete store satisfying
both primary-key invariants. -/
theorem results_have_no_duplicate_ids_check :
    ((dbAB.movies.map Movie.movie_id).Nodup ∧
      (dbAB.embeddings.map MovieEmbeddingOpenAI.movie_id).Nodup) ∧
    (((get_recommendations testOps testEmbed dbAB "q" 1 10
        EmbeddingModel.LARGE_3 ScoreMetricVersion.V3).map Movie.movie_id).Nodup ∧
      ((get_similar_movies testOps dbAB 2 1 10
        EmbeddingModel.LARGE_3 ScoreMetricVersion.V3).map Movie.movie_id).Nodup) :=
  ⟨⟨by simp [dbAB, mA, mB], by simp [dbAB, eA, eB]⟩,
    results_have_no_duplicate_ids testOps testEmbed dbAB "q" 2 1 10
      EmbeddingModel.LARGE_3 ScoreMetricVersion.V3
      (by simp [dbAB, mA, mB]) (by simp [dbAB, eA, eB])⟩

lemma descBefore_antisymm {a b : Option ℚ} (h1 : descBefore a b = true)
    (h2 : descBefore b a = true) : a = b := by
  match a, b with
  | none, none => rfl
  | none, some y => exact absurd h2 (by simp [descBefore])
  | some x, none => exact absurd h1 (by simp [descBefore])
  | some x, some y =>
    simp only [descBefore, decide_eq_true_eq] at h1 h2
    exact congrArg some (le_antisymm h2 h1)

lemma cons_eq_append_of_forall_eq {α : Type} (a : α) :
    ∀ u : List α, (∀ x ∈ u, x = a) → a :: u = u ++ [a]
  | [], _ => rfl
  | b :: u, h => by
    have hb : b = a := h b (List.mem_cons_self b u)
    subst hb
    have ht : b :: u = u ++ [b] :=
      cons_eq_append_of_forall_eq b u fun x hx => h x (List.mem_cons_of_mem b hx)
    calc b :: b :: u = b :: (u ++ [b]) := by rw [← ht]
      _ = (b :: u) ++ [b] := rfl

lemma eq_of_perm_of_pairwise_antisymmOn {α : Type} {r : α → α → Prop} :
    ∀ {l1 l2 : List α}, (∀ a ∈ l1, ∀ b ∈ l1, r a b → r b a → a = b) →
      List.Perm l1 l2 → l1.Pairwise r → l2.Pairwise r → l1 = l2 := by
  intro l1
  induction l1 with
  | nil => intro l2 _ hp _ _; exact hp.nil_eq
  | cons a l1 ih =>
    intro l2 hanti hp hs1 hs2
    have ha : a ∈ l2 := hp.subset (List.mem_cons_self a l1)
    obtain ⟨u2, v2, rfl⟩ := List.append_of_mem ha
    have hp2 : List.Perm l1 (u2 ++ v2) := (List.perm_cons a).1 (hp.trans List.perm_middle)
    rw [List.pairwise_cons] at hs1
    obtain ⟨h1, hs1t⟩ := hs1
    have hanti2 : ∀ x ∈ l1, ∀ y ∈ l1, r x y → r y x → x = y := fun x hx y hy =>
      hanti x (List.mem_cons_of_mem a hx) y (List.mem_cons_of_mem a hy)
    have hs2t : (u2 ++ v2).Pairwise r := hs2.sublist (by simp)
    have hl : l1 = u2 ++ v2 := ih hanti2 hp2 hs1t hs2t
    have hu : ∀ x ∈ u2, x = a := by
      intro x hx
      have hxa : r x a :=
        (List.pairwise_append.1 hs2).2.2 x hx a (List.mem_cons_self a v2)
      have hxl : x ∈ l1 := by rw [hl]; exact List.mem_append_left _ hx
      have hax : r a x := h1 x hxl
      exact hanti x (List.mem_cons_of_mem a hxl) a (List.mem_cons_self a l1) hxa hax
    calc a :: l1 = a :: (u2 ++ v2) := by rw [hl]
      _ = (a :: u2) ++ v2 := rfl
      _ = (u2 ++ [a]) ++ v2 := by rw [← cons_eq_append_of_forall_eq a u2 hu]
      _ = u2 ++ a :: v2 := by simp

/-- C9 counterexample: `dbTie` holds two distinct movies whose V3 scores under
the same call of `get_recommendations` are exactly equal; with no secondary
sort key, both relative orders are valid executions of the identical, ordered
query, and the two results differ — so two calls with identical arguments are
not guaranteed to return identical ordered lists when scores tie. -/
theorem tied_scores_admit_two_result_orders :
    score_v3 testOps (testEmbed "q") EmbeddingModel.LARGE_3 mTie1 eTie1
        = score_v3 testOps (testEmbed "q") EmbeddingModel.LARGE_3 mTie2 eTie2 ∧
    mTie1 ≠ mTie2 ∧
    get_recommendations_execution testOps testEmbed dbTie "q" 1 10
      EmbeddingModel.LARGE_3 ScoreMetricVersion.V3 [mTie1, mTie2] ∧
    get_recommendations_execution testOps testEmbed dbTie "q" 1 10
      EmbeddingModel.LARGE_3 ScoreMetricVersion.V3 [mTie2, mTie1] ∧
    ([mTie1, mTie2] : List Movie) ≠ [mTie2, mTie1] := by
  have hjoin : joinedRows dbTie = [(mTie1, eTie1), (mTie2, eTie2)] := by
    norm_num [joinedRows, dbTie, mTie1, mTie2, eTie1, eTie2,
      List.filter_cons, List.flatMap_cons]
  have hscore : ∀ p : Movie × MovieEmbeddingOpenAI,
      p = (mTie1, eTie1) ∨ p = (mTie2, eTie2) →
      ScoreMetricVersion.V3.score_function testOps (testEmbed "q")
        EmbeddingModel.LARGE_3 p.1 p.2 = some 0.215 := by
    rintro p (rfl | rfl) <;>
      norm_num [ScoreMetricVersion.score_function, score_v3, testOps, testEmbed,
        mTie1, mTie2, eTie1, eTie2, EmbeddingModel.db_column, min_def]
  refine ⟨?_, ?_, ?_, ?_, ?_⟩
  · have h1 := hscore (mTie1, eTie1) (Or.inl rfl)
    have h2 := hscore (mTie2, eTie2) (Or.inr rfl)
    simpa [ScoreMetricVersion.score_function] using h1.trans h2.symm
  · norm_num [mTie1, mTie2]
  · refine ⟨[(mTie1, eTie1), (mTie2, eTie2)], by rw [hjoin], ?_, rfl⟩
    unfold sortedByScoreDesc
    rw [List.pairwise_cons]
    refine ⟨?_, List.pairwise_singleton _ _⟩
    intro b hb
    rw [List.mem_singleton] at hb
    subst hb
    simp only [hscore (mTie1, eTie1) (Or.inl rfl), hscore (mTie2, eTie2) (Or.inr rfl)]
    simp [descBefore]
  · refine ⟨[(mTie2, eTie2), (mTie1, eTie1)], ?_, ?_, rfl⟩
    · rw [hjoin]; exact List.Perm.swap _ _ _
    · unfold sortedByScoreDesc
      rw [List.pairwise_cons]
      refine ⟨?_, List.pairwise_singleton _ _⟩
      intro b hb
      rw [List.mem_singleton] at hb
      subst hb
      simp only [hscore (mTie1, eTie1) (Or.inl rfl), hscore (mTie2, eTie2) (Or.inr rfl)]
      simp [descBefore]
  · norm_num [mTie1, mTie2]

/-- C9 amended: two calls of `get_recommendations` with identical arguments on
a fixed store and deterministic embedder return identical ordered lists
whenever the scoring expression distinguishes the candidate rows (no two
distinct candidates with exactly equal score values); when scores tie exactly,
the relative order of the tied rows is store-defined and the lists may differ
(counterexample above). -/
theorem recommendations_deterministic_when_scores_distinct (ops : SQLOps)
    (embed_text : String → List ℚ) (db : DB) (prompt : String)
    (page per_page : ℕ) (em : EmbeddingModel) (smv : ScoreMetricVersion)
    (res1 res2 : List Movie)
    (hinj : ∀ p1 ∈ joinedRows db, ∀ p2 ∈ joinedRows db,
      smv.score_function ops (embed_text prompt) em p1.1 p1.2
        = smv.score_function ops (embed_text prompt) em p2.1 p2.2 → p1 = p2)
    (h1 : get_recommendations_execution ops embed_text db prompt page per_page
      em smv res1)
    (h2 : get_recommendations_execution ops embed_text db prompt page per_page
      em smv res2) :
    res1 = res2 := by
  obtain ⟨s1, hp1, hs1, rfl⟩ := h1
  obtain ⟨s2, hp2, hs2, rfl⟩ := h2
  suffices hss : s1 = s2 by rw [hss]
  refine eq_of_perm_of_pairwise_antisymmOn ?_ (hp1.symm.trans hp2) hs1 hs2
  intro a ha b hb hab hba
  exact hinj a (hp1.mem_iff.2 ha) b (hp1.mem_iff.2 hb) (descBefore_antisymm hab hba)

/-- C9 amended witness: on a concrete store whose two candidates have distinct
V3 scores, two concrete executions of the same call are shown equal by the
theorem. -/
theorem recommendations_deterministic_check :
    (∀ p1 ∈ joinedRows dbAB, ∀ p2 ∈ joinedRows dbAB,
      ScoreMetricVersion.V3.score_function testOps (testEmbed "q")
          EmbeddingModel.LARGE_3 p1.1 p1.2
        = ScoreMetricVersion.V3.score_function testOps (testEmbed "q")
          EmbeddingModel.LARGE_3 p2.1 p2.2 → p1 = p2) ∧
    get_recommendations_execution testOps testEmbed dbAB "q" 1 10
      EmbeddingModel.LARGE_3 ScoreMetricVersion.V3 [mA, mB] ∧
    ([mA, mB] : List Movie) = [mA, mB] := by
  have hjoin : joinedRows dbAB = [(mA, eA), (mB, eB)] := by
    norm_num [joinedRows, dbAB, mA, mB, eA, eB, List.filter_cons, List.flatMap_cons]
  have hsA : ScoreMetricVersion.V3.score_function testOps (testEmbed "q")
      EmbeddingModel.LARGE_3 mA eA = some 0.356 := by
    norm_num [ScoreMetricVersion.score_function, score_v3, testOps, testEmbed,
      mA, eA, EmbeddingModel.db_column, min_def]
  have hsB : ScoreMetricVersion.V3.score_function testOps (testEmbed "q")
      EmbeddingModel.LARGE_3 mB eB = some (-0.565) := by
    norm_num [ScoreMetricVersion.score_function, score_v3, testOps, testEmbed,
      mB, eB, EmbeddingModel.db_column, min_def]
  have hinj : ∀ p1 ∈ joinedRows dbAB, ∀ p2 ∈ joinedRows dbAB,
      ScoreMetricVersion.V3.score_function testOps (testEmbed "q")
          EmbeddingModel.LARGE_3 p1.1 p1.2
        = ScoreMetricVersion.V3.score_function testOps (testEmbed "q")
          EmbeddingModel.LARGE_3 p2.1 p2.2 → p1 = p2 := by
    intro p1 h1 p2 h2 heq
    rw [hjoin, List.mem_cons, List.mem_singleton] at h1 h2
    rcases h1 with rfl | rfl <;> rcases h2 with rfl | rfl
    · rfl
    · rw [hsA, hsB] at heq; exact absurd heq (by norm_num)
    · rw [hsA, hsB] at heq; exact absurd heq (by norm_num)
    · rfl
  have hexec : get_recommendations_execution testOps testEmbed dbAB "q" 1 10
      EmbeddingModel.LARGE_3 ScoreMetricVersion.V3 [mA, mB] := by
    refine ⟨[(mA, eA), (mB, eB)], by rw [hjoin], ?_, rfl⟩
    unfold sortedByScoreDesc
    rw [List.pairwise_cons]
    refine ⟨?_, List.pairwise_singleton _ _⟩
    intro b hb
    rw [List.mem_singleton] at hb
    subst hb
    simp only [hsA, hsB]
    norm_num [descBefore]
  exact ⟨hinj, hexec,
    recommendations_deterministic_when_scores_distinct testOps testEmbed dbAB "q"
      1 10 EmbeddingModel.LARGE_3 ScoreMetricVersion.V3 [mA, mB] [mA, mB]
      hinj hexec hexec⟩

end MovieRec
